import Mathlib

/-
Verification of the condition aggregation and scoring engine of the
my_dashboard repository: hour-interval compression, astronomical lighting
windows, weather scoring, aurora visibility, and the dashboard summary.

Numeric f64 values are embedded as rationals; timestamps as seconds (ℤ).
User-facing strings are abstracted into inductive tags, one constructor per
distinct string pushed by the source.
-/

namespace MyDashboard

/-! ## Hour interval compression

Embeds the interval-compression loop that appears verbatim in
src/dashboard.rs (print_dashboard), src/lib.rs (generate_weather_output,
generate_astrophotography_output, generate_solar_output) and src/solar.rs
(print_solar_data): scan the list keeping a current inclusive interval
(start, end); a hour equal to end + 1 extends it, anything else closes it
and starts a new one. -/

/-- One iteration of the compression loop: state is
(closed intervals, start, end) as in the Rust loop body. -/
def compressStep (st : List (ℕ × ℕ) × ℕ × ℕ) (hour : ℕ) :
    List (ℕ × ℕ) × ℕ × ℕ :=
  if hour = st.2.2 + 1 then (st.1, st.2.1, hour)
  else (st.1 ++ [(st.2.1, st.2.2)], hour, hour)

/-- The full compression: empty input produces no intervals; otherwise the
loop runs over the tail and the last open interval is closed at the end,
exactly as in the source. A pair (a, a) stands for the single-hour
rendering, (a, b) for the range rendering. -/
def compressHours : List ℕ → List (ℕ × ℕ)
  | [] => []
  | h :: rest =>
    let st := rest.foldl compressStep ([], h, h)
    st.1 ++ [(st.2.1, st.2.2)]

/-- Modelled from the spec: the comparison definition for the
hour-compression claim, written from the words of section 4.5 — group
maximal runs of consecutive hours (next equals previous + 1) into
inclusive ranges; a length-1 run is the pair (h, h). -/
def specRuns (start e : ℕ) : List ℕ → List (ℕ × ℕ)
  | [] => [(start, e)]
  | h :: t => if h = e + 1 then specRuns start h t else (start, e) :: specRuns h h t

/-- Modelled from the spec: maximal-run grouping of a whole hour list. -/
def specCompress : List ℕ → List (ℕ × ℕ)
  | [] => []
  | h :: t => specRuns h h t

/-! ## Astronomical lighting windows (src/golden_hour.rs)

Timestamps are seconds in the local frame. The sunrise/sunset event
times come from the external sunrise crate and are inputs here. -/

/-- The ten timestamp fields of GoldenHourInfo in src/golden_hour.rs. -/
structure GoldenHourInfo where
  sunrise : ℤ
  sunset : ℤ
  golden_hour_morning_start : ℤ
  golden_hour_morning_end : ℤ
  golden_hour_evening_start : ℤ
  golden_hour_evening_end : ℤ
  blue_hour_morning_start : ℤ
  blue_hour_morning_end : ℤ
  blue_hour_evening_start : ℤ
  blue_hour_evening_end : ℤ
deriving DecidableEq

/-- The window derivation of calculate_golden_hours
(src/golden_hour.rs lines 156-183): golden hour is one hour either side
of sunrise/sunset, blue hour the 30 minutes before sunrise and the
30 minutes after sunset. -/
def mkGoldenHourInfo (sunrise sunset : ℤ) : GoldenHourInfo :=
  { sunrise := sunrise
    sunset := sunset
    golden_hour_morning_start := sunrise - 3600
    golden_hour_morning_end := sunrise + 3600
    golden_hour_evening_start := sunset - 3600
    golden_hour_evening_end := sunset + 3600
    blue_hour_morning_start := sunrise - 1800
    blue_hour_morning_end := sunrise
    blue_hour_evening_start := sunset
    blue_hour_evening_end := sunset + 1800 }

/-- Coordinate validation as in src/lib.rs validate_coordinates and the
sunrise crate constructor: latitude in [-90, 90], longitude in
[-180, 180]. -/
def validate_coordinates (latitude longitude : ℚ) : Bool :=
  decide ((-90 ≤ latitude ∧ latitude ≤ 90) ∧ (-180 ≤ longitude ∧ longitude ≤ 180))

/-- calculate_golden_hours (src/golden_hour.rs): the Rust function has
return type GoldenHourInfo with no error channel. Coordinates::new(..)
followed by expect aborts the process on an out-of-range coordinate, and
per the specification the library event-time computation is unwrapped and
panics at polar day/night; both aborts are modelled as Except.error
carrying the panic message, and the pair of library event times is an
input, none standing for a date with no sunrise/sunset. -/
def calculate_golden_hours (latitude longitude : ℚ)
    (events : Option (ℤ × ℤ)) : Except String GoldenHourInfo :=
  if validate_coordinates latitude longitude = true then
    match events with
    | some (sunrise, sunset) => .ok (mkGoldenHourInfo sunrise sunset)
    | none => .error "panic: no sunrise or sunset for this date"
  else
    .error "panic: Invalid coordinates"

/-- The six outcomes of get_current_lighting_condition, one constructor
per returned string. -/
inductive LightingCondition
  | blueHourMorning
  | blueHourEvening
  | goldenHourMorning
  | goldenHourEvening
  | daytime
  | nighttime
deriving DecidableEq

/-- get_current_lighting_condition (src/golden_hour.rs lines 233-270):
blue-hour windows are tested first, then golden-hour windows, then the
sunrise-to-sunset daytime interval; every window test is inclusive on
both ends. -/
def get_current_lighting_condition (t sunrise sunset : ℤ) : LightingCondition :=
  let g := mkGoldenHourInfo sunrise sunset
  if g.blue_hour_morning_start ≤ t ∧ t ≤ g.blue_hour_morning_end then
    .blueHourMorning
  else if g.blue_hour_evening_start ≤ t ∧ t ≤ g.blue_hour_evening_end then
    .blueHourEvening
  else if g.golden_hour_morning_start ≤ t ∧ t ≤ g.golden_hour_morning_end then
    .goldenHourMorning
  else if g.golden_hour_evening_start ≤ t ∧ t ≤ g.golden_hour_evening_end then
    .goldenHourEvening
  else if g.sunrise ≤ t ∧ t ≤ g.sunset then
    .daytime
  else
    .nighttime

/-! ## Weather scoring (src/weather.rs) -/

/-- The numeric fields of WeatherData that the analysis reads; the
description string and the timestamp play no part in scoring. -/
structure WeatherData where
  temperature : ℚ
  humidity : ℚ
  wind_speed : ℚ
  cloud_cover : ℚ
  visibility : ℚ
  precipitation_probability : ℚ
deriving DecidableEq

/-- One constructor per distinct concern string pushed by
analyze_weather_for_photography, in the order the source tests them. -/
inductive Concern
  | temperature
  | wind
  | cloudCover
  | visibility
  | precipitation
deriving DecidableEq

/-- One constructor per overall recommendation string of
analyze_weather_for_photography. -/
inductive WeatherRecommendation
  | excellent
  | good
  | notIdeal
deriving DecidableEq

/-- WeatherAnalysis of src/weather.rs, with strings abstracted to tags. -/
structure WeatherAnalysis where
  overall_score : ℚ
  recommendations : List WeatherRecommendation
  best_hours : List ℕ
  concerns : List Concern
deriving DecidableEq

/-- The per-hour score accumulated by the loop body of
analyze_weather_for_photography: temperature in [10, 25] earns 2, wind
below 10 earns 2, cloud cover below 30 earns 3 and below 70 earns 1.5,
visibility above 8 earns 2, precipitation probability below 20 earns 1,
and hours 6..8 and 18..20 earn the fixed golden-hour bonus 2. -/
def hourScore (hour : ℕ) (w : WeatherData) : ℚ :=
  (if 10 ≤ w.temperature ∧ w.temperature ≤ 25 then 2 else 0)
    + (if w.wind_speed < 10 then 2 else 0)
    + (if w.cloud_cover < 30 then 3 else if w.cloud_cover < 70 then 3 / 2 else 0)
    + (if 8 < w.visibility then 2 else 0)
    + (if w.precipitation_probability < 20 then 1 else 0)
    + (if (6 ≤ hour ∧ hour ≤ 8) ∨ (18 ≤ hour ∧ hour ≤ 20) then 2 else 0)

/-- The concerns pushed for one hour by the same loop body, in source
order; each branch that fails its test appends exactly one concern, and
cloud cover appends one only when both cloud branches fail. -/
def hourConcerns (w : WeatherData) : List Concern :=
  (if 10 ≤ w.temperature ∧ w.temperature ≤ 25 then [] else [.temperature])
    ++ (if w.wind_speed < 10 then [] else [.wind])
    ++ (if w.cloud_cover < 30 then [] else if w.cloud_cover < 70 then [] else [.cloudCover])
    ++ (if 8 < w.visibility then [] else [.visibility])
    ++ (if w.precipitation_probability < 20 then [] else [.precipitation])

/-- The enumerated loop of analyze_weather_for_photography: accumulated
score, best hours (hours whose own score reaches 7) and concerns, with
hour counting up from the given index. -/
def analyzeHours (hour : ℕ) : List WeatherData → ℚ × List ℕ × List Concern
  | [] => (0, [], [])
  | w :: rest =>
    let s := hourScore hour w
    let r := analyzeHours (hour + 1) rest
    (s + r.1, (if 7 ≤ s then [hour] else []) ++ r.2.1, hourConcerns w ++ r.2.2)

/-- analyze_weather_for_photography (src/weather.rs lines 295-388): runs
the hourly loop from hour 0, divides the accumulated score by the
constant 24, and appends exactly one overall recommendation chosen by
the thresholds 7 and 5. -/
def analyze_weather_for_photography (forecast : List WeatherData) : WeatherAnalysis :=
  let r := analyzeHours 0 forecast
  let overall := r.1 / 24
  { overall_score := overall
    recommendations :=
      if 7 ≤ overall then [.excellent]
      else if 5 ≤ overall then [.good]
      else [.notIdeal]
    best_hours := r.2.1
    concerns := r.2.2 }

/-! ## Aurora visibility (src/solar.rs) -/

/-- One constructor per intensity string of predict_aurora. -/
inductive IntensityLevel
  | veryHigh
  | high
  | moderate
  | low
  | minimal
deriving DecidableEq

/-- One constructor per conditions string of predict_aurora. -/
inductive AuroraConditions
  | excellentViewing
  | auroraPossible
  | auroraUnlikely
  | poorViewing
deriving DecidableEq

/-- AuroraForecast of src/solar.rs with strings abstracted to tags. -/
structure AuroraForecast where
  visibility_probability : ℚ
  intensity_level : IntensityLevel
  best_viewing_hours : List ℕ
  conditions : AuroraConditions
deriving DecidableEq

/-- calculate_aurora_activity (src/solar.rs lines 255-276): the Kp term
min(kp/9, 1) * 6, a solar-wind speed bonus of 2 above 600 or 1 above
400, a density bonus of 2 above 10 or 1 above 5, the total capped at
10. The accumulator mutation sequence of the source is the let chain. -/
def calculate_aurora_activity (speed density kp_index : ℚ) : ℚ :=
  let activity : ℚ := 0
  let activity := activity + min (kp_index / 9) 1 * 6
  let activity := if 600 < speed then activity + 2
    else if 400 < speed then activity + 1 else activity
  let activity := if 10 < density then activity + 2
    else if 5 < density then activity + 1 else activity
  min activity 10

/-- predict_aurora (src/solar.rs lines 278-323) with the two fetches
replaced by their numeric results: probability is min(activity/10, 1),
intensity and conditions follow the descending probability thresholds,
and best_viewing_hours is the fixed night block. -/
def predict_aurora (speed density kp_index : ℚ) : AuroraForecast :=
  let activity := calculate_aurora_activity speed density kp_index
  let probability := min (activity / 10) 1
  { visibility_probability := probability
    intensity_level :=
      if 4 / 5 < probability then .veryHigh
      else if 3 / 5 < probability then .high
      else if 2 / 5 < probability then .moderate
      else if 1 / 5 < probability then .low
      else .minimal
    best_viewing_hours := [22, 23, 0, 1, 2, 3, 4, 5]
    conditions :=
      if 3 / 5 < probability then .excellentViewing
      else if 2 / 5 < probability then .auroraPossible
      else if 1 / 5 < probability then .auroraUnlikely
      else .poorViewing }

/-! ## Dashboard summary (src/dashboard.rs) -/

/-- The four recommendation strings of determine_overall_recommendation,
one constructor each. -/
inductive RecommendationTier
  | excellent
  | good
  | moderate
  | notRecommended
deriving DecidableEq

/-- One constructor per key-highlight string pushed by create_summary. -/
inductive Highlight
  | excellentWeather
  | goodWeather
  | goldenHourToday
  | goldenHourMorningNow
  | goldenHourEveningNow
deriving DecidableEq

/-- The single warning string create_summary can push. -/
inductive DashWarning
  | weatherNotIdeal
deriving DecidableEq

/-- DashboardSummary of src/dashboard.rs with strings abstracted. -/
structure DashboardSummary where
  overall_recommendation : RecommendationTier
  weather_score : ℚ
  aurora_probability : ℚ
  is_golden_hour_today : Bool
  best_shooting_hours : List ℕ
  key_highlights : List Highlight
  warnings : List DashWarning
deriving DecidableEq

/-- determine_overall_recommendation (src/dashboard.rs lines 156-170):
two inputs only; excellent needs weather score at least 8 together with
the golden-hour flag, then good at 7 and moderate at 5 on the weather
score alone, else the reschedule recommendation. -/
def determine_overall_recommendation (weather_score : ℚ)
    (is_golden_hour_today : Bool) : RecommendationTier :=
  if 8 ≤ weather_score ∧ is_golden_hour_today = true then .excellent
  else if 7 ≤ weather_score then .good
  else if 5 ≤ weather_score then .moderate
  else .notRecommended

/-- create_summary (src/dashboard.rs lines 98-154). The DateTime hour()
projections of the source become the ℕ hour arguments. Highlights and
warnings are pushed in source order; best_shooting_hours is the clone of
the weather analysis best_hours. -/
def create_summary (weather_analysis : WeatherAnalysis)
    (morning_start_hour morning_end_hour evening_start_hour evening_end_hour : ℕ)
    (is_golden_hour_today : Bool) (current_hour : ℕ)
    (aurora_probability : ℚ) : DashboardSummary :=
  let weatherHighlights : List Highlight :=
    if 8 ≤ weather_analysis.overall_score then [.excellentWeather]
    else if 6 ≤ weather_analysis.overall_score then [.goodWeather]
    else []
  let weatherWarnings : List DashWarning :=
    if 8 ≤ weather_analysis.overall_score then []
    else if 6 ≤ weather_analysis.overall_score then []
    else [.weatherNotIdeal]
  let goldenHighlights : List Highlight :=
    if is_golden_hour_today then [.goldenHourToday]
    else if morning_start_hour ≤ current_hour ∧ current_hour ≤ morning_end_hour then
      [.goldenHourMorningNow]
    else if evening_start_hour ≤ current_hour ∧ current_hour ≤ evening_end_hour then
      [.goldenHourEveningNow]
    else []
  { overall_recommendation :=
      determine_overall_recommendation weather_analysis.overall_score is_golden_hour_today
    weather_score := weather_analysis.overall_score
    aurora_probability := aurora_probability
    is_golden_hour_today := is_golden_hour_today
    best_shooting_hours := weather_analysis.best_hours
    key_highlights := weatherHighlights ++ goldenHighlights
    warnings := weatherWarnings }

/-- Modelled from the spec: insertion step of an ascending sort, used
only to express the sorted deduplicated union the specification ascribes
to best_shooting_hours. -/
def insertHour (x : ℕ) : List ℕ → List ℕ
  | [] => [x]
  | y :: ys => if x ≤ y then x :: y :: ys else y :: insertHour x ys

/-- Modelled from the spec: ascending insertion sort on hour lists. -/
def sortHours : List ℕ → List ℕ
  | [] => []
  | x :: xs => insertHour x (sortHours xs)

/-- Modelled from the spec: removal of adjacent duplicates from a sorted
hour list. -/
def dedupHours : List ℕ → List ℕ
  | [] => []
  | [x] => [x]
  | x :: y :: ys => if x = y then dedupHours (y :: ys) else x :: dedupHours (y :: ys)

/-- Modelled from the spec: the sorted, deduplicated union of two hour
lists that section 4.4 says best_shooting_hours should be. -/
def specSortedDedupUnion (a b : List ℕ) : List ℕ :=
  dedupHours (sortHours (a ++ b))

/-! ## Auxiliary data for bounds proofs -/

/-- The fixed golden-hour calendar bonus of the weather scorer as a
standalone quantity. -/
def bonusQ (hour : ℕ) : ℚ :=
  if (6 ≤ hour ∧ hour ≤ 8) ∨ (18 ≤ hour ∧ hour ≤ 20) then 2 else 0

/-- Largest score the hourly loop can hand out for n consecutive hours
starting at the given hour index: 10 from the five weather criteria plus
the calendar bonus where it applies. -/
def maxScoreSum (hour : ℕ) : ℕ → ℚ
  | 0 => 0
  | n + 1 => (10 + bonusQ hour) + maxScoreSum (hour + 1) n

/-- The uniformly ideal weather sample of the spec's section 8 test
vector: 20 degrees, 2 m/s wind, 10 percent cloud, 20 km visibility, no
precipitation. -/
def idealSample : WeatherData :=
  { temperature := 20
    humidity := 50
    wind_speed := 2
    cloud_cover := 10
    visibility := 20
    precipitation_probability := 0 }

/-- A sample whose cloud cover sits exactly on the 70 percent boundary,
all other criteria ideal. -/
def cloudBoundarySample : WeatherData :=
  { temperature := 20
    humidity := 50
    wind_speed := 2
    cloud_cover := 70
    visibility := 20
    precipitation_probability := 0 }

/-- Modelled from the spec: the per-hour score exactly as the claim
words it, with the 1.5 cloud bonus on the closed 30 to 70 band. Used
only for comparison against the source scoring. -/
def specHourScoreC5 (hour : ℕ) (w : WeatherData) : ℚ :=
  (if 10 ≤ w.temperature ∧ w.temperature ≤ 25 then 2 else 0)
    + (if w.wind_speed < 10 then 2 else 0)
    + (if w.cloud_cover < 30 then 3 else 0)
    + (if 30 ≤ w.cloud_cover ∧ w.cloud_cover ≤ 70 then 3 / 2 else 0)
    + (if 8 < w.visibility then 2 else 0)
    + (if w.precipitation_probability < 20 then 1 else 0)
    + (if (6 ≤ hour ∧ hour ≤ 8) ∨ (18 ≤ hour ∧ hour ≤ 20) then 2 else 0)

/-- Modelled from the spec as amended: identical wording but the 1.5
cloud band is the half-open [30, 70), matching the strict less-than 70
test of the source. -/
def amendedHourScore (hour : ℕ) (w : WeatherData) : ℚ :=
  (if 10 ≤ w.temperature ∧ w.temperature ≤ 25 then 2 else 0)
    + (if w.wind_speed < 10 then 2 else 0)
    + (if w.cloud_cover < 30 then 3 else 0)
    + (if 30 ≤ w.cloud_cover ∧ w.cloud_cover < 70 then 3 / 2 else 0)
    + (if 8 < w.visibility then 2 else 0)
    + (if w.precipitation_probability < 20 then 1 else 0)
    + (if (6 ≤ hour ∧ hour ≤ 8) ∨ (18 ≤ hour ∧ hour ≤ 20) then 2 else 0)

/-- A weather analysis whose best_hours contains hour 23, used with the
aurora night block to exercise the union-merge step. -/
def lateHourAnalysis : WeatherAnalysis :=
  { overall_score := 15 / 2
    recommendations := [.excellent]
    best_hours := [23]
    concerns := [] }

/-! ## Lemmas and claim theorems -/

/-- Unwinding the compression loop: running the fold from any state and
then closing the final interval appends exactly the maximal-run grouping
of the remaining input. -/
theorem foldl_compressStep_eq (l : List ℕ) : ∀ (acc : List (ℕ × ℕ)) (s e : ℕ),
    (l.foldl compressStep (acc, s, e)).1
        ++ [((l.foldl compressStep (acc, s, e)).2.1, (l.foldl compressStep (acc, s, e)).2.2)]
      = acc ++ specRuns s e l := by
  induction l with
  | nil => intro acc s e; simp [specRuns]
  | cons h t ih =>
    intro acc s e
    by_cases hc : h = e + 1
    · simp only [List.foldl_cons, compressStep, if_pos hc, specRuns, ih]
    · simp only [List.foldl_cons, compressStep, if_neg hc, specRuns, ih,
        List.append_assoc, List.singleton_append]

/-- The source compression loop computes the maximal-run grouping on
every input list. -/
theorem compressHours_eq_specCompress (l : List ℕ) :
    compressHours l = specCompress l := by
  cases l with
  | nil => rfl
  | cons h t =>
    have := foldl_compressStep_eq t [] h h
    simpa [compressHours, specCompress] using this

/-- C7: on every sorted, deduplicated hour list the compression loop
groups maximal runs of consecutive hours into inclusive ranges, a
length-1 run becoming the single-hour pair; the spec's four vectors
evaluate as stated, and 23 followed by 0 breaks the run instead of
wrapping. -/
theorem hour_compression_maximal_runs (hours : List ℕ)
    (hsorted : List.Chain' (fun a b => a < b) hours) :
    compressHours hours = specCompress hours
    ∧ compressHours [6, 7, 8, 18, 19, 20] = [(6, 8), (18, 20)]
    ∧ compressHours [] = []
    ∧ compressHours [5] = [(5, 5)]
    ∧ compressHours [22, 23, 0, 1, 2, 3, 4, 5] = [(22, 23), (0, 5)] :=
  ⟨compressHours_eq_specCompress hours, by decide, by decide, by decide, by decide⟩

/-- Witness for the compression claim at a concrete sorted input. -/
theorem hour_compression_maximal_runs_witness :
    List.Chain' (fun a b => a < b) [6, 7, 8, 18, 19, 20]
    ∧ compressHours [6, 7, 8, 18, 19, 20] = specCompress [6, 7, 8, 18, 19, 20] :=
  ⟨by norm_num [List.chain'_cons], (hour_compression_maximal_runs [6, 7, 8, 18, 19, 20]
    (by norm_num [List.chain'_cons])).1⟩

/-- C9: for a valid coordinate and a date with sunrise and sunset
events, the calculator succeeds and the windows satisfy all the claimed
equations: golden hour is the two-hour interval centred on sunrise
respectively sunset, blue hour is the half hour ending at sunrise and
the half hour starting at sunset. -/
theorem lighting_window_derivation (latitude longitude : ℚ) (sunrise sunset : ℤ)
    (hvalid : validate_coordinates latitude longitude = true) :
    calculate_golden_hours latitude longitude (some (sunrise, sunset))
        = .ok (mkGoldenHourInfo sunrise sunset)
    ∧ (mkGoldenHourInfo sunrise sunset).golden_hour_morning_start = sunrise - 3600
    ∧ (mkGoldenHourInfo sunrise sunset).golden_hour_morning_end = sunrise + 3600
    ∧ (mkGoldenHourInfo sunrise sunset).golden_hour_morning_end
        - (mkGoldenHourInfo sunrise sunset).golden_hour_morning_start = 7200
    ∧ (mkGoldenHourInfo sunrise sunset).golden_hour_evening_start = sunset - 3600
    ∧ (mkGoldenHourInfo sunrise sunset).golden_hour_evening_end = sunset + 3600
    ∧ (mkGoldenHourInfo sunrise sunset).golden_hour_evening_end
        - (mkGoldenHourInfo sunrise sunset).golden_hour_evening_start = 7200
    ∧ (mkGoldenHourInfo sunrise sunset).blue_hour_morning_start = sunrise - 1800
    ∧ (mkGoldenHourInfo sunrise sunset).blue_hour_morning_end = sunrise
    ∧ (mkGoldenHourInfo sunrise sunset).blue_hour_morning_end
        - (mkGoldenHourInfo sunrise sunset).blue_hour_morning_start = 1800
    ∧ (mkGoldenHourInfo sunrise sunset).blue_hour_evening_start = sunset
    ∧ (mkGoldenHourInfo sunrise sunset).blue_hour_evening_end = sunset + 1800
    ∧ (mkGoldenHourInfo sunrise sunset).blue_hour_evening_end
        - (mkGoldenHourInfo sunrise sunset).blue_hour_evening_start = 1800 := by
  refine ⟨by simp [calculate_golden_hours, hvalid], ?_, ?_, ?_, ?_, ?_, ?_, ?_, ?_, ?_, ?_, ?_, ?_⟩
    <;> simp [mkGoldenHourInfo]

/-- Witness for the window-derivation claim at the Moscow coordinate. -/
theorem lighting_window_derivation_witness :
    validate_coordinates 55 37 = true
    ∧ calculate_golden_hours 55 37 (some (21600, 64800))
        = .ok (mkGoldenHourInfo 21600 64800) :=
  ⟨by decide, (lighting_window_derivation 55 37 21600 64800 (by decide)).1⟩

/-- C3: the calculator aborts instead of returning typed failures: an
out-of-range latitude dies on the expect over the coordinate
constructor, and a date without sunrise or sunset dies on the library
unwrap; neither path yields an InvalidCoordinate or PolarDayOrNight
value, because no such variants exist in the source. -/
theorem golden_hours_panic_behavior :
    calculate_golden_hours 91 0 (some (21600, 64800))
        = .error "panic: Invalid coordinates"
    ∧ calculate_golden_hours 0 181 (some (21600, 64800))
        = .error "panic: Invalid coordinates"
    ∧ calculate_golden_hours 80 33 none
        = .error "panic: no sunrise or sunset for this date" := by
  refine ⟨?_, ?_, ?_⟩ <;> rfl

/-- C8: on any day whose sunrise precedes its sunset, every instant of
the morning blue-hour window also lies in the enclosing morning
golden-hour window yet classifies as morning blue hour, and every
instant of the evening blue-hour window also lies in the enclosing
evening golden-hour window yet classifies as evening blue hour, because
both blue windows are tested before the golden windows; in particular
ten minutes before sunrise is morning blue hour and ten minutes after
sunset is evening blue hour, not golden hour. -/
theorem blue_hour_checked_before_golden (sunrise sunset : ℤ)
    (hday : sunrise < sunset) :
    (∀ t : ℤ, sunrise - 1800 ≤ t → t ≤ sunrise →
      (sunrise - 3600 ≤ t ∧ t ≤ sunrise + 3600)
      ∧ get_current_lighting_condition t sunrise sunset = .blueHourMorning)
    ∧ (∀ t : ℤ, sunset ≤ t → t ≤ sunset + 1800 →
      (sunset - 3600 ≤ t ∧ t ≤ sunset + 3600)
      ∧ get_current_lighting_condition t sunrise sunset = .blueHourEvening)
    ∧ get_current_lighting_condition (sunrise - 600) sunrise sunset = .blueHourMorning
    ∧ get_current_lighting_condition (sunset + 600) sunrise sunset = .blueHourEvening := by
  have morning : ∀ t : ℤ, sunrise - 1800 ≤ t → t ≤ sunrise →
      get_current_lighting_condition t sunrise sunset = .blueHourMorning := by
    intro t h1 h2
    unfold get_current_lighting_condition
    simp only [mkGoldenHourInfo]
    rw [if_pos ⟨h1, h2⟩]
  have evening : ∀ t : ℤ, sunset ≤ t → t ≤ sunset + 1800 →
      get_current_lighting_condition t sunrise sunset = .blueHourEvening := by
    intro t h1 h2
    have hnotm : ¬(sunrise - 1800 ≤ t ∧ t ≤ sunrise) := by
      rintro ⟨_, hm⟩; omega
    unfold get_current_lighting_condition
    simp only [mkGoldenHourInfo]
    rw [if_neg hnotm, if_pos ⟨h1, h2⟩]
  refine ⟨fun t h1 h2 => ⟨⟨by omega, by omega⟩, morning t h1 h2⟩,
    fun t h1 h2 => ⟨⟨by omega, by omega⟩, evening t h1 h2⟩,
    morning (sunrise - 600) (by omega) (by omega),
    evening (sunset + 600) (by omega) (by omega)⟩

/-- Witness for the blue-hour tie-break claim at concrete times, ten
minutes before sunrise and ten minutes after sunset. -/
theorem blue_hour_checked_before_golden_witness :
    (21600 : ℤ) < 64800
    ∧ get_current_lighting_condition 21000 21600 64800 = .blueHourMorning
    ∧ get_current_lighting_condition 65400 21600 64800 = .blueHourEvening :=
  ⟨by decide,
    (blue_hour_checked_before_golden 21600 64800 (by decide)).2.2.1,
    (blue_hour_checked_before_golden 21600 64800 (by decide)).2.2.2⟩

/-- C1 counterexample: at weather score 8 with the golden-hour flag set,
the source recommendation is the excellent tier, not the good tier the
claimed composite value 6.2 would select. -/
theorem recommendation_excellent_at_8_golden :
    determine_overall_recommendation 8 true = .excellent
    ∧ determine_overall_recommendation 8 true ≠ .good := by
  refine ⟨?_, ?_⟩ <;> decide

/-- C1 as amended: the engine computes no composite and ignores aurora
probability; the tier is a two-input rule — excellent exactly when the
weather score reaches 8 and the golden-hour flag is set, otherwise good
from weather score 7, moderate from 5, else the reschedule tier. -/
theorem recommendation_two_input_tiers (ws : ℚ) (gh : Bool) :
    (determine_overall_recommendation ws gh = .excellent ↔ 8 ≤ ws ∧ gh = true)
    ∧ (determine_overall_recommendation ws gh = .good
        ↔ ¬(8 ≤ ws ∧ gh = true) ∧ 7 ≤ ws)
    ∧ (determine_overall_recommendation ws gh = .moderate
        ↔ ¬(8 ≤ ws ∧ gh = true) ∧ ws < 7 ∧ 5 ≤ ws)
    ∧ (determine_overall_recommendation ws gh = .notRecommended
        ↔ ¬(8 ≤ ws ∧ gh = true) ∧ ws < 5) := by
  unfold determine_overall_recommendation
  split_ifs with h1 h2 h3 <;> refine ⟨?_, ?_, ?_, ?_⟩ <;> simp_all <;> linarith

/-- C2 counterexample: with hour 23 among the weather best hours and the
aurora night block containing 22 and 23, the summary keeps exactly the
weather list, which differs from the sorted deduplicated union the claim
requires. -/
theorem best_shooting_hours_no_aurora_union :
    (create_summary lateHourAnalysis 4 6 19 21 false 12 (3 / 10)).best_shooting_hours = [23]
    ∧ (predict_aurora 500 5 3).best_viewing_hours = [22, 23, 0, 1, 2, 3, 4, 5]
    ∧ specSortedDedupUnion lateHourAnalysis.best_hours
        (predict_aurora 500 5 3).best_viewing_hours = [0, 1, 2, 3, 4, 5, 22, 23]
    ∧ (create_summary lateHourAnalysis 4 6 19 21 false 12 (3 / 10)).best_shooting_hours
        ≠ specSortedDedupUnion lateHourAnalysis.best_hours
          (predict_aurora 500 5 3).best_viewing_hours := by
  refine ⟨?_, ?_, ?_, ?_⟩ <;> decide

/-- C2 as amended: the summary's best_shooting_hours is exactly the
weather analysis best_hours; the aurora viewing hours are never merged
in, so a duplicated hour cannot arise because the second list is
ignored entirely. -/
theorem best_shooting_hours_copied_from_weather (wa : WeatherAnalysis)
    (ms me es ee : ℕ) (gh : Bool) (ch : ℕ) (ap : ℚ) :
    (create_summary wa ms me es ee gh ch ap).best_shooting_hours = wa.best_hours := rfl

/-- Every hourly score is nonnegative: each criterion adds a
nonnegative amount. -/
theorem hourScore_nonneg (hour : ℕ) (w : WeatherData) : 0 ≤ hourScore hour w := by
  unfold hourScore; split_ifs <;> norm_num

/-- Every hourly score is at most the 10 points of the five weather
criteria plus the calendar bonus of its hour. -/
theorem hourScore_le_ten_add_bonus (hour : ℕ) (w : WeatherData) :
    hourScore hour w ≤ 10 + bonusQ hour := by
  unfold hourScore bonusQ; split_ifs <;> norm_num

/-- The calendar bonus is at most 2. -/
theorem bonusQ_le_two (hour : ℕ) : bonusQ hour ≤ 2 := by
  unfold bonusQ; split <;> norm_num

/-- Every hourly score is at most 12. -/
theorem hourScore_le_twelve (hour : ℕ) (w : WeatherData) : hourScore hour w ≤ 12 := by
  have h1 := hourScore_le_ten_add_bonus hour w
  have h2 := bonusQ_le_two hour
  linarith

/-- The accumulated score of the hourly loop is nonnegative. -/
theorem analyzeHours_score_nonneg (l : List WeatherData) :
    ∀ k : ℕ, 0 ≤ (analyzeHours k l).1 := by
  induction l with
  | nil => intro k; simp [analyzeHours]
  | cons w rest ih =>
    intro k
    simp only [analyzeHours]
    exact add_nonneg (hourScore_nonneg k w) (ih (k + 1))

/-- The accumulated score of the hourly loop is bounded by the sum of
the per-hour maxima. -/
theorem analyzeHours_score_le (l : List WeatherData) :
    ∀ k : ℕ, (analyzeHours k l).1 ≤ maxScoreSum k l.length := by
  induction l with
  | nil => intro k; simp [analyzeHours, maxScoreSum]
  | cons w rest ih =>
    intro k
    simp only [analyzeHours, List.length_cons, maxScoreSum]
    exact add_le_add (hourScore_le_ten_add_bonus k w) (ih (k + 1))

/-- Over a full day starting at hour 0 the per-hour maxima add up to
252: ten points per hour plus twelve points of calendar bonus. -/
theorem maxScoreSum_day : maxScoreSum 0 24 = 252 := by
  norm_num [maxScoreSum, bonusQ]

/-- The accumulated score equals the sum of the individual hourly
scores over the hour-enumerated forecast. -/
theorem analyzeHours_score_eq_sum (l : List WeatherData) :
    ∀ k : ℕ, (analyzeHours k l).1
      = ((List.enumFrom k l).map fun p => hourScore p.1 p.2).sum := by
  induction l with
  | nil => intro k; simp [analyzeHours, List.enumFrom]
  | cons w rest ih =>
    intro k
    simp only [analyzeHours, List.enumFrom, List.map_cons, List.sum_cons]
    rw [ih (k + 1)]

/-- An hour is collected into best_hours by the loop exactly when it is
one of the enumerated hours and its own score reaches 7. -/
theorem analyzeHours_mem_best (h : ℕ) (l : List WeatherData) :
    ∀ k : ℕ, (h ∈ (analyzeHours k l).2.1
      ↔ ∃ p ∈ List.enumFrom k l, p.1 = h ∧ 7 ≤ hourScore p.1 p.2) := by
  induction l with
  | nil => intro k; simp [analyzeHours, List.enumFrom]
  | cons w rest ih =>
    intro k
    simp only [analyzeHours, List.enumFrom, List.mem_append, ih (k + 1)]
    by_cases hs : 7 ≤ hourScore k w
    · simp only [if_pos hs, List.mem_cons, List.not_mem_nil, or_false]
      constructor
      · rintro (hh | ⟨p, hp, hph, hps⟩)
        · exact ⟨(k, w), Or.inl rfl, hh.symm, hs⟩
        · exact ⟨p, Or.inr hp, hph, hps⟩
      · rintro ⟨p, hp | hp, hph, hps⟩
        · rw [hp] at hph; exact Or.inl (show h = k from hph.symm)
        · exact Or.inr ⟨p, hp, hph, hps⟩
    · simp only [if_neg hs, List.not_mem_nil, false_or, List.mem_cons]
      constructor
      · rintro ⟨p, hp, hph, hps⟩
        exact ⟨p, Or.inr hp, hph, hps⟩
      · rintro ⟨p, hp | hp, hph, hps⟩
        · rw [hp] at hps; exact absurd hps hs
        · exact ⟨p, hp, hph, hps⟩

/-- The conditional cloud-cover term of the source equals the two-band
decomposition that the amended claim words. -/
theorem cloudTerm_eq (cc : ℚ) :
    (if cc < 30 then (3 : ℚ) else if cc < 70 then 3 / 2 else 0)
      = (if cc < 30 then (3 : ℚ) else 0)
        + (if 30 ≤ cc ∧ cc < 70 then 3 / 2 else 0) := by
  by_cases h1 : cc < 30
  · have hb : ¬(30 ≤ cc ∧ cc < 70) := fun hc => absurd hc.1 (not_le.mpr h1)
    rw [if_pos h1, if_pos h1, if_neg hb, add_zero]
  · by_cases h2 : cc < 70
    · rw [if_neg h1, if_pos h2, if_neg h1, if_pos ⟨not_lt.mp h1, h2⟩, zero_add]
    · have hb : ¬(30 ≤ cc ∧ cc < 70) := fun hc => h2 hc.2
      rw [if_neg h1, if_neg h2, if_neg h1, if_neg hb, add_zero]

/-- A cloud-cover concern is pushed exactly when cloud cover reaches
70 percent, the branch where both cloud tests fail. -/
theorem cloudConcern_iff (w : WeatherData) :
    Concern.cloudCover ∈ hourConcerns w ↔ 70 ≤ w.cloud_cover := by
  unfold hourConcerns
  split_ifs with c1 c2 c3 c4 c5 c6 <;> simp_all <;> linarith

/-- C10: the analysis divides the accumulated score by the constant 24
whatever the sample count: the empty forecast yields score 0, no best
hours, no concerns and exactly the lowest-tier recommendation, and a
single ideal sample yields 10/24 = 5/12 instead of the sample-count
average 10. -/
theorem weather_average_divides_by_constant_24 :
    (∀ forecast : List WeatherData,
      (analyze_weather_for_photography forecast).overall_score
        = ((List.enumFrom 0 forecast).map fun p => hourScore p.1 p.2).sum / 24)
    ∧ analyze_weather_for_photography []
        = { overall_score := 0, recommendations := [.notIdeal],
            best_hours := [], concerns := [] }
    ∧ (analyze_weather_for_photography [idealSample]).overall_score = 5 / 12
    ∧ hourScore 0 idealSample / (([idealSample] : List WeatherData).length : ℚ) = 10
    ∧ (analyze_weather_for_photography [idealSample]).overall_score
        ≠ hourScore 0 idealSample / (([idealSample] : List WeatherData).length : ℚ) := by
  refine ⟨?_,
    by norm_num [analyze_weather_for_photography, analyzeHours],
    by norm_num [analyze_weather_for_photography, analyzeHours, hourScore, idealSample],
    by norm_num [hourScore, idealSample],
    by norm_num [analyze_weather_for_photography, analyzeHours, hourScore, idealSample]⟩
  intro forecast
  simp only [analyze_weather_for_photography]
  rw [analyzeHours_score_eq_sum forecast 0]

/-- C4 counterexample: on the uniformly ideal day the bonus hour 6
scores 12, above the claimed hourly cap of 10, and the overall score is
10.5, outside the claimed [0, 10]. -/
theorem weather_overall_score_exceeds_ten :
    hourScore 6 idealSample = 12
    ∧ ¬ hourScore 6 idealSample ≤ 10
    ∧ (List.replicate 24 idealSample).length = 24
    ∧ (analyze_weather_for_photography (List.replicate 24 idealSample)).overall_score = 21 / 2
    ∧ ¬ (analyze_weather_for_photography
          (List.replicate 24 idealSample)).overall_score ≤ 10 := by
  refine ⟨?_, ?_, by decide, ?_, ?_⟩ <;>
    norm_num [List.replicate, analyze_weather_for_photography, analyzeHours,
      hourScore, idealSample]

/-- C4 as amended: for every 24-sample forecast the overall score lies
in [0, 10.5] and equals the sum of the 24 hourly scores divided by 24,
each hourly score being at most 12. -/
theorem weather_overall_score_bounds (forecast : List WeatherData)
    (h24 : forecast.length = 24) :
    0 ≤ (analyze_weather_for_photography forecast).overall_score
    ∧ (analyze_weather_for_photography forecast).overall_score ≤ 21 / 2
    ∧ (analyze_weather_for_photography forecast).overall_score
        = ((List.enumFrom 0 forecast).map fun p => hourScore p.1 p.2).sum / 24
    ∧ ∀ p ∈ List.enumFrom 0 forecast, hourScore p.1 p.2 ≤ 12 := by
  have hnn := analyzeHours_score_nonneg forecast 0
  have hle := analyzeHours_score_le forecast 0
  rw [h24, maxScoreSum_day] at hle
  refine ⟨?_, ?_, ?_, ?_⟩
  · simp only [analyze_weather_for_photography]; linarith
  · simp only [analyze_weather_for_photography]; linarith
  · simp only [analyze_weather_for_photography]
    rw [analyzeHours_score_eq_sum forecast 0]
  · intro p _; exact hourScore_le_twelve p.1 p.2

/-- Witness for the amended overall-score bounds on the ideal day. -/
theorem weather_overall_score_bounds_witness :
    (List.replicate 24 idealSample).length = 24
    ∧ 0 ≤ (analyze_weather_for_photography
        (List.replicate 24 idealSample)).overall_score :=
  ⟨by decide, (weather_overall_score_bounds (List.replicate 24 idealSample) (by decide)).1⟩

/-- C5 counterexample: at exactly 70 percent cloud cover the source
scores the hour 7 with a cloud concern, while the claimed 30-70 band
would score it 8.5 with no concern. -/
theorem cloud_cover_boundary_counterexample :
    hourScore 0 cloudBoundarySample = 7
    ∧ specHourScoreC5 0 cloudBoundarySample = 17 / 2
    ∧ hourScore 0 cloudBoundarySample ≠ specHourScoreC5 0 cloudBoundarySample
    ∧ Concern.cloudCover ∈ hourConcerns cloudBoundarySample := by
  refine ⟨?_, ?_, ?_, ?_⟩ <;>
    norm_num [hourScore, specHourScoreC5, hourConcerns, cloudBoundarySample]

/-- C5 as amended: the per-hour score is the claimed sum of criteria
with the 1.5 cloud band being [30, 70) and the cloud concern firing
from 70 percent; hourly scores cap at 12, the overall score is the sum
of the hourly scores divided by 24, and best_hours collects exactly the
hours whose own score reaches 7. -/
theorem weather_hour_scoring_characterization (hour : ℕ) (w : WeatherData)
    (forecast : List WeatherData) (h : ℕ) :
    hourScore hour w = amendedHourScore hour w
    ∧ hourScore hour w ≤ 12
    ∧ (Concern.cloudCover ∈ hourConcerns w ↔ 70 ≤ w.cloud_cover)
    ∧ (analyze_weather_for_photography forecast).overall_score
        = ((List.enumFrom 0 forecast).map fun p => hourScore p.1 p.2).sum / 24
    ∧ (h ∈ (analyze_weather_for_photography forecast).best_hours
        ↔ ∃ p ∈ List.enumFrom 0 forecast, p.1 = h ∧ 7 ≤ hourScore p.1 p.2) := by
  refine ⟨?_, hourScore_le_twelve hour w, cloudConcern_iff w, ?_, ?_⟩
  · unfold hourScore amendedHourScore
    rw [cloudTerm_eq]
    ring
  · simp only [analyze_weather_for_photography]
    rw [analyzeHours_score_eq_sum forecast 0]
  · simp only [analyze_weather_for_photography]
    exact analyzeHours_mem_best h forecast 0

/-- The accumulated activity is nonnegative whenever the Kp index is,
since every contribution is then nonnegative and the cap is 10. -/
theorem aurora_activity_nonneg (speed density kp : ℚ) (hkp : 0 ≤ kp) :
    0 ≤ calculate_aurora_activity speed density kp := by
  have hbase : 0 ≤ min (kp / 9) 1 * 6 :=
    mul_nonneg (le_min (div_nonneg hkp (by norm_num)) zero_le_one) (by norm_num)
  unfold calculate_aurora_activity
  split_ifs <;>
    · refine le_min (by linarith) (by norm_num)

/-- C6: the aurora activity is the Kp term plus the speed and density
bonuses capped at 10; the probability is activity over 10 clamped to
[0, 1]; the spec's two test vectors evaluate to activity 10,
probability 1, Very High and to activity 0, probability 0, Minimal. -/
theorem aurora_activity_and_probability (speed density kp : ℚ) (hkp : 0 ≤ kp) :
    calculate_aurora_activity speed density kp
        = min (min (kp / 9) 1 * 6
            + (if 600 < speed then 2 else if 400 < speed then 1 else 0)
            + (if 10 < density then 2 else if 5 < density then 1 else 0)) 10
    ∧ calculate_aurora_activity speed density kp ≤ 10
    ∧ (predict_aurora speed density kp).visibility_probability
        = max 0 (min (calculate_aurora_activity speed density kp / 10) 1)
    ∧ calculate_aurora_activity 1000 20 9 = 10
    ∧ (predict_aurora 1000 20 9).visibility_probability = 1
    ∧ (predict_aurora 1000 20 9).intensity_level = .veryHigh
    ∧ calculate_aurora_activity 0 0 0 = 0
    ∧ (predict_aurora 0 0 0).visibility_probability = 0
    ∧ (predict_aurora 0 0 0).intensity_level = .minimal := by
  refine ⟨?_, min_le_right _ _, ?_, ?_, ?_, ?_, ?_, ?_, ?_⟩
  · unfold calculate_aurora_activity
    split_ifs <;> ring_nf
  · have h0 : 0 ≤ calculate_aurora_activity speed density kp / 10 :=
      div_nonneg (aurora_activity_nonneg speed density kp hkp) (by norm_num)
    have h1 : 0 ≤ min (calculate_aurora_activity speed density kp / 10) 1 :=
      le_min h0 zero_le_one
    simp only [predict_aurora]
    exact (max_eq_right h1).symm
  · norm_num [calculate_aurora_activity]
  · norm_num [predict_aurora, calculate_aurora_activity]
  · norm_num [predict_aurora, calculate_aurora_activity]
  · norm_num [calculate_aurora_activity]
  · norm_num [predict_aurora, calculate_aurora_activity]
  · norm_num [predict_aurora, calculate_aurora_activity]

/-- Witness for the aurora claim at a mid-range input. -/
theorem aurora_activity_and_probability_witness :
    (0 : ℚ) ≤ 3 ∧ calculate_aurora_activity 500 5 3 ≤ 10 :=
  ⟨by norm_num, (aurora_activity_and_probability 500 5 3 (by norm_num)).2.1⟩

end MyDashboard
